import Mathlib

/-!
Shallow embedding of the westend-migrate submission-and-resilience core.

The definitions below are translated from the Rust sources:
- namespace Utils mirrors src/utils.rs (validity-byte decoding, balance checks);
- the MigrationError datatype and its classification functions mirror src/error.rs;
- the control-loop and submission-pipeline step functions mirror src/main.rs
  (dry-run retry loop, finalization wait, error/success handling, limits setup).

Machine integers (u32, u64, u128, bytes) are modelled as Nat; the f64 display
conversion of balances is modelled exactly over the rationals. Fallible paths
return Except or Option. Network effects (RPC calls, status streams) are made
explicit parameters: a status stream is a list of observed events, each paired
with the value of the elapsed-time timeout test at the moment it is received,
and nonce queries are passed in as values.
-/

namespace Utils

/-- Mirrors utils.rs ValidityError: the sub-taxonomy decoded from a dry-run
validity rejection. -/
inductive ValidityError where
  | Stale
  | Future
  | Priority
  | Payment
  | BadProof
  | AncientBirthBlock
  | ExhaustsResources
  | Other (s : String)
deriving DecidableEq, Repr

/-- One lowercase hex digit, as produced by hex::encode. -/
def hexDigit (n : Nat) : Char :=
  if n < 10 then Char.ofNat (48 + n) else Char.ofNat (87 + n)

/-- Two lowercase hex digits for one byte, as produced by hex::encode. -/
def hexByte (b : Nat) : String :=
  String.mk [hexDigit (b / 16 % 16), hexDigit (b % 16)]

/-- Mirrors hex::encode over a byte sequence. -/
def hexEncode (bs : List Nat) : String :=
  String.join (bs.map hexByte)

/-- Mirrors utils.rs decode_validity_error: decode a TransactionValidityError
from the raw dry_run result bytes. Bytes are Nats below 256. -/
def decode_validity_error (raw_bytes : List Nat) : ValidityError :=
  if raw_bytes.isEmpty then ValidityError.Other "empty response"
  else
    let error_start := if raw_bytes.getD 0 0 = 1 then 1 else 0
    if raw_bytes.length ≤ error_start then
      ValidityError.Other ("raw: 0x" ++ hexEncode raw_bytes)
    else
      let validity_type := raw_bytes.getD error_start 255
      let sub_type := raw_bytes.getD (error_start + 1) 255
      match validity_type with
      | 0 =>
        match sub_type with
        | 1 => ValidityError.Payment
        | 2 => ValidityError.Future
        | 3 => ValidityError.Stale
        | 4 => ValidityError.BadProof
        | 5 => ValidityError.AncientBirthBlock
        | 6 => ValidityError.ExhaustsResources
        | 0 => ValidityError.Other "Invalid::Call - the call of the transaction is not expected"
        | 7 =>
          let custom := raw_bytes.getD (error_start + 2) 0
          ValidityError.Other ("Invalid::Custom(" ++ toString custom ++ ")")
        | 8 => ValidityError.Other "Invalid::BadMandatory - mandatory dispatch failed"
        | 9 => ValidityError.Other "Invalid::MandatoryValidation - mandatory validation failed"
        | 10 => ValidityError.BadProof
        | n => ValidityError.Other ("Invalid::Unknown(" ++ toString n ++ ")")
      | 1 =>
        match sub_type with
        | 0 => ValidityError.Other "Unknown::CannotLookup - could not look up information"
        | 1 => ValidityError.Other "Unknown::NoUnsignedValidator - no validator for unsigned tx"
        | 2 =>
          let custom := raw_bytes.getD (error_start + 2) 0
          ValidityError.Other ("Unknown::Custom(" ++ toString custom ++ ")")
        | n => ValidityError.Other ("Unknown::Unknown(" ++ toString n ++ ")")
      | t =>
        ValidityError.Other
          ("UnrecognizedError(type=" ++ toString t ++ ", raw=0x" ++ hexEncode raw_bytes ++ ")")

/-- Mirrors utils.rs units_to_wnd: convert balance units to WND (12 decimals).
The f64 division is modelled exactly over the rationals. -/
def units_to_wnd (units : Nat) : ℚ :=
  (units : ℚ) / 1000000000000

/-- Mirrors utils.rs check_balance_decrease. -/
def check_balance_decrease (before after : Nat) : Option ℚ :=
  if after < before then some (units_to_wnd (before - after)) else none

end Utils

/-- Mirrors error.rs MigrationError. The f64 payload of BalanceDecreased is
modelled as a rational; anyhow-wrapped errors carry their rendered text. -/
inductive MigrationError where
  | PoolConflict
  | NonceStale
  | NonceFuture
  | TxBanned
  | DryRunDispatchError (s : String)
  | SizeExceeded
  | ValidityError (ve : Utils.ValidityError)
  | BalanceDecreased (lost_wnd : ℚ)
  | ZeroBalance
  | ConnectionFailed (s : String)
  | RpcError (s : String)
  | SubmissionFailed (s : String)
  | TxDropped (s : String)
  | MigrationComplete
  | NoMigrationProgress
  | InvalidSeed (s : String)
  | TooManyErrors (count : Nat) (last_error : String)
  | Other (s : String)
deriving Repr

/-- Mirrors MigrationError::is_recoverable. -/
def MigrationError.is_recoverable : MigrationError → Bool
  | MigrationError.PoolConflict => true
  | MigrationError.NonceStale => true
  | MigrationError.NonceFuture => true
  | MigrationError.TxBanned => true
  | MigrationError.RpcError _ => true
  | _ => false

/-- Mirrors MigrationError::requires_pool_wait. -/
def MigrationError.requires_pool_wait : MigrationError → Bool
  | MigrationError.PoolConflict => true
  | MigrationError.NonceStale => true
  | _ => false

/-- Mirrors the matches(err, MigrationError::TxBanned) test in the control loop. -/
def MigrationError.isTxBanned : MigrationError → Bool
  | MigrationError.TxBanned => true
  | _ => false

/-- Contiguous-sublist test on character lists, mirroring str::contains. -/
def isInfixChars (pat : List Char) : List Char → Bool
  | [] => pat.isEmpty
  | c :: rest => pat.isPrefixOf (c :: rest) || isInfixChars pat rest

/-- Mirrors Rust s.contains(pat) for string literals. -/
def strContains (s pat : String) : Bool :=
  isInfixChars pat.data s.data

/-- Mirrors MigrationError::from_rpc_error. -/
def MigrationError.from_rpc_error (err_str : String) : MigrationError :=
  if strContains err_str "1014" || strContains err_str "Priority is too low" then
    MigrationError.PoolConflict
  else if strContains err_str "1010" || strContains err_str "bad signature" then
    MigrationError.NonceStale
  else if strContains err_str "1012" || strContains err_str "temporarily banned" then
    MigrationError.TxBanned
  else
    MigrationError.SubmissionFailed err_str

/-- Mirrors MigrationError::from_validity_error. -/
def MigrationError.from_validity_error (ve : Utils.ValidityError) : MigrationError :=
  match ve with
  | Utils.ValidityError.Stale => MigrationError.NonceStale
  | Utils.ValidityError.Future => MigrationError.NonceFuture
  | Utils.ValidityError.Priority => MigrationError.PoolConflict
  | _ => MigrationError.ValidityError ve

/-- Mirrors main.rs MAX_CONSECUTIVE_ERRORS. -/
def MAX_CONSECUTIVE_ERRORS : Nat := 5

/-- Mirrors main.rs MAX_DRY_RUN_RETRIES in submit_migration. -/
def MAX_DRY_RUN_RETRIES : Nat := 3

/-- Outcome of one dry-run attempt, as observed by submit_migration: the chain
answer to one system_dryRun call for the freshly signed transaction. -/
inductive DryRunOutcome where
  | success
  | dispatchError (s : String)
  | validityError (raw : List Nat)
  | decodeFailure
  | rpcUnsafe
  | rpcError (s : String)

/-- Result of the dry-run retry loop in submit_migration: either a signed
transaction is available for submission (recording how many attempts were
consumed) or the pipeline fails with a structured error. -/
inductive DryRunResultM where
  | proceed (attempts_used : Nat)
  | fail (e : MigrationError)
deriving Repr

/-- Mirrors the for-retry-in-0..MAX_DRY_RUN_RETRIES loop of submit_migration.
The fuel argument is the number of loop iterations remaining
(MAX_DRY_RUN_RETRIES - retry); when it runs out the loop falls through to the
ok_or_else fallback. On a validity rejection decoding to Stale with retries
remaining the loop re-signs and retries; every other rejection returns at once. -/
def dry_run_aux (outcomes : Nat → DryRunOutcome) : Nat → Nat → DryRunResultM
  | 0, _ =>
    DryRunResultM.fail
      (MigrationError.DryRunDispatchError "Failed to create valid transaction after retries")
  | fuel + 1, retry =>
    match outcomes retry with
    | DryRunOutcome.success => DryRunResultM.proceed (retry + 1)
    | DryRunOutcome.dispatchError s =>
      if strContains s "SizeUpperBoundExceeded" then
        DryRunResultM.fail MigrationError.SizeExceeded
      else
        DryRunResultM.fail (MigrationError.DryRunDispatchError s)
    | DryRunOutcome.validityError raw =>
      let ve := Utils.decode_validity_error raw
      if ve = Utils.ValidityError.Stale ∧ retry < MAX_DRY_RUN_RETRIES - 1 then
        dry_run_aux outcomes fuel (retry + 1)
      else
        DryRunResultM.fail (MigrationError.from_validity_error ve)
    | DryRunOutcome.decodeFailure => DryRunResultM.proceed (retry + 1)
    | DryRunOutcome.rpcUnsafe => DryRunResultM.proceed (retry + 1)
    | DryRunOutcome.rpcError s => DryRunResultM.fail (MigrationError.RpcError s)

/-- The dry-run validation phase of submit_migration, started at retry 0 with
full fuel. -/
def dry_run_loop (outcomes : Nat → DryRunOutcome) : DryRunResultM :=
  dry_run_aux outcomes MAX_DRY_RUN_RETRIES 0

/-- Transaction status events delivered by the submit-and-watch stream,
mirroring the subxt TxStatus variants matched in submit_migration. -/
inductive TxStatusM where
  | Broadcasted (num_peers : Nat)
  | InBestBlock
  | InFinalizedBlock
  | ErrorStatus (message : String)
  | Dropped (message : String)
  | OtherStatus

/-- Mirrors the code after the finalization wait loop in submit_migration:
when the stream ended (or the loop broke), the nonce is re-queried only when an
inclusion was seen, and the function returns Ok in every case. -/
def stream_end_check (expected_nonce current_nonce : Nat) (included : Bool) :
    Except MigrationError Unit :=
  if included then
    if expected_nonce < current_nonce then Except.ok () else Except.ok ()
  else Except.ok ()

/-- Mirrors the finalization wait loop of submit_migration. Each stream event
is paired with the value of the elapsed-greater-than-120s test evaluated when
it is received; expected_nonce is the nonce captured before submission and
current_nonce the value a re-query would return. -/
def wait_finalization (expected_nonce current_nonce : Nat) :
    List (Bool × TxStatusM) → Bool → Except MigrationError Unit
  | [], included => stream_end_check expected_nonce current_nonce included
  | (timed_out, st) :: rest, included =>
    if timed_out then
      if expected_nonce < current_nonce then Except.ok ()
      else
        Except.error (MigrationError.SubmissionFailed "Finalization timeout - TX may be stuck")
    else
      match st with
      | TxStatusM.Broadcasted _ => wait_finalization expected_nonce current_nonce rest included
      | TxStatusM.InBestBlock => wait_finalization expected_nonce current_nonce rest true
      | TxStatusM.InFinalizedBlock => stream_end_check expected_nonce current_nonce included
      | TxStatusM.ErrorStatus m => Except.error (MigrationError.SubmissionFailed m)
      | TxStatusM.Dropped m => Except.error (MigrationError.TxDropped m)
      | TxStatusM.OtherStatus => wait_finalization expected_nonce current_nonce rest included

/-- What one control-loop iteration decides to do next. -/
inductive LoopOutcome where
  | abort (e : MigrationError)
  | stop
  | cont
deriving Repr

/-- Mirrors the Ok branch of the submit_migration match in run: after a
reported-successful submission the balance is re-checked; a detected decrease
aborts with BalanceDecreased, otherwise the loop stops when the configured run
target is reached and continues otherwise. successful_runs is the value after
its increment. -/
def handle_success (balance_before balance_after successful_runs target_runs : Nat) :
    LoopOutcome :=
  match Utils.check_balance_decrease balance_before balance_after with
  | some lost_wnd => LoopOutcome.abort (MigrationError.BalanceDecreased lost_wnd)
  | none =>
    if 0 < target_runs ∧ target_runs ≤ successful_runs then LoopOutcome.stop
    else LoopOutcome.cont

/-- What the error branch of the control loop decides: abort, or retry with an
updated consecutive-error counter. -/
inductive ErrOutcome where
  | abort (e : MigrationError)
  | retry (consecutive : Nat)
deriving Repr

/-- Mirrors the Err branch of the submit_migration match in run. err is the
downcast result (none when the failure is not a MigrationError) and msg its
rendered text, used as the last_error payload. -/
def handle_error (err : Option MigrationError) (msg : String) (consecutive_errors : Nat) :
    ErrOutcome :=
  match err with
  | some e =>
    if e.requires_pool_wait then ErrOutcome.retry 0
    else if e.isTxBanned then ErrOutcome.retry 0
    else if e.is_recoverable then ErrOutcome.retry consecutive_errors
    else
      let c := consecutive_errors + 1
      if MAX_CONSECUTIVE_ERRORS ≤ c then
        ErrOutcome.abort (MigrationError.TooManyErrors c msg)
      else ErrOutcome.retry c
  | none =>
    let c := consecutive_errors + 1
    if MAX_CONSECUTIVE_ERRORS ≤ c then
      ErrOutcome.abort (MigrationError.TooManyErrors c msg)
    else ErrOutcome.retry c

/-- The submission outcome seen by one iteration of the control loop. -/
inductive SubmitOutcome where
  | success
  | failure (err : Option MigrationError) (msg : String)

/-- The consecutive-error counter after one control-loop iteration, none when
the iteration aborts the loop. The Ok branch of run never touches the counter,
so a success leaves it unchanged. -/
def counter_step (consecutive_errors : Nat) : SubmitOutcome → Option Nat
  | SubmitOutcome.success => some consecutive_errors
  | SubmitOutcome.failure err msg =>
    match handle_error err msg consecutive_errors with
    | ErrOutcome.retry c => some c
    | ErrOutcome.abort _ => none

/-- Iterated error handling over a list of consecutive submission failures. -/
def run_failures : Nat → List (Option MigrationError × String) → ErrOutcome
  | consecutive, [] => ErrOutcome.retry consecutive
  | consecutive, (err, msg) :: rest =>
    match handle_error err msg consecutive with
    | ErrOutcome.abort e => ErrOutcome.abort e
    | ErrOutcome.retry c => run_failures c rest

/-- The effective per-operation limits resolved at startup, and whether a
set_signed_max_limits transaction is submitted before the loop starts. -/
structure LimitsResolution where
  size_limit : Nat
  item_limit : Nat
  set_tx : Bool
deriving DecidableEq, Repr

/-- Mirrors the limits-negotiation block of run: chain_limits is the decoded
SignedMigrationMaxLimits (none when unset), cfg_size and cfg_item the operator
configuration with 0 meaning derive automatically. -/
def resolve_limits (chain_limits : Option (Nat × Nat)) (cfg_size cfg_item : Nat) :
    LimitsResolution :=
  match chain_limits with
  | some (max_size, max_item) =>
    let item_limit := if cfg_item = 0 then max_item / 2 else cfg_item
    let size_limit := if cfg_size = 0 then max_size / 2 else cfg_size
    if max_item < item_limit ∨ max_size < size_limit then
      ⟨size_limit, item_limit, true⟩
    else
      ⟨size_limit, item_limit, false⟩
  | none =>
    let item_limit := if cfg_item = 0 then 4096 else cfg_item
    let size_limit := if cfg_size = 0 then 409600 else cfg_size
    ⟨size_limit, item_limit, true⟩

/-- Mirrors the zero-balance precondition check of run: a zero balance aborts
with ZeroBalance unless dry-run-only mode is configured. -/
def startup_balance_check (balance : Nat) (dry_run : Bool) : Except MigrationError Unit :=
  if balance = 0 then
    if !dry_run then Except.error MigrationError.ZeroBalance else Except.ok ()
  else Except.ok ()

/-- Any error classified as requiring a pool wait is also recoverable. -/
theorem requires_pool_wait_recoverable (e : MigrationError) :
    e.requires_pool_wait = true → e.is_recoverable = true := by
  cases e <;> simp [MigrationError.requires_pool_wait, MigrationError.is_recoverable]

/-- The TxBanned error is recoverable. -/
theorem isTxBanned_recoverable (e : MigrationError) :
    e.isTxBanned = true → e.is_recoverable = true := by
  cases e <;> simp [MigrationError.isTxBanned, MigrationError.is_recoverable]

/-- Claim C7: for every pair of balances, check_balance_decrease returns none
when the balance did not decrease, and when it did it returns exactly the loss
in display units, which is non-negative. -/
theorem c7_check_balance_decrease (before after : Nat) :
    (before ≤ after → Utils.check_balance_decrease before after = none) ∧
    (after < before →
      Utils.check_balance_decrease before after = some (Utils.units_to_wnd (before - after)) ∧
      0 ≤ Utils.units_to_wnd (before - after)) := by
  constructor
  · intro h
    simp [Utils.check_balance_decrease, Nat.not_lt.mpr h]
  · intro h
    refine ⟨by simp [Utils.check_balance_decrease, h], ?_⟩
    unfold Utils.units_to_wnd
    positivity

/-- Witness for C7 at concrete balances 3 and 1 (and the no-loss pair 3, 3). -/
theorem c7_witness :
    Utils.check_balance_decrease 3 3 = none ∧
    (Utils.check_balance_decrease 3 1 = some (Utils.units_to_wnd 2) ∧
      0 ≤ Utils.units_to_wnd 2) :=
  ⟨(c7_check_balance_decrease 3 3).1 (by decide), (c7_check_balance_decrease 3 1).2 (by decide)⟩

/-- Claim C3: after a reported-successful submission, a balance decrease makes
the control loop abort at once with BalanceDecreased carrying the lost amount,
for every run counter and configured run target. -/
theorem c3_balance_decrease_aborts
    (balance_before balance_after successful_runs target_runs : Nat)
    (h : balance_after < balance_before) :
    handle_success balance_before balance_after successful_runs target_runs =
      LoopOutcome.abort
        (MigrationError.BalanceDecreased (Utils.units_to_wnd (balance_before - balance_after))) := by
  simp [handle_success, Utils.check_balance_decrease, h]

/-- Witness for C3: balance drops from 5 to 2 with one run left out of eight. -/
theorem c3_witness :
    handle_success 5 2 7 8 =
      LoopOutcome.abort (MigrationError.BalanceDecreased (Utils.units_to_wnd 3)) :=
  c3_balance_decrease_aborts 5 2 7 8 (by decide)

/-- Claim C10: a zero startup balance aborts with ZeroBalance exactly when
dry-run-only mode is off; with dry-run-only mode the run proceeds, as does any
run with a non-zero balance. -/
theorem c10_zero_balance_gate :
    startup_balance_check 0 false = Except.error MigrationError.ZeroBalance ∧
    startup_balance_check 0 true = Except.ok () ∧
    (∀ balance dr, balance ≠ 0 → startup_balance_check balance dr = Except.ok ()) := by
  refine ⟨rfl, rfl, ?_⟩
  intro balance dr h
  simp [startup_balance_check, h]

/-- Witness for C10 at a balance of 7 units with dry-run-only mode on. -/
theorem c10_witness : startup_balance_check 7 true = Except.ok () :=
  c10_zero_balance_gate.2.2 7 true (by decide)

/-- Claim C2 counterexample: RpcError is recoverable, yet hitting it leaves the
consecutive-error counter at 3 instead of resetting it, and a successful
submission also leaves the counter at 3 instead of resetting it. -/
theorem c2_counterexample :
    (MigrationError.RpcError "x").is_recoverable = true ∧
    counter_step 3 (SubmitOutcome.failure (some (MigrationError.RpcError "x")) "x") = some 3 ∧
    counter_step 3 SubmitOutcome.success = some 3 :=
  ⟨rfl, rfl, rfl⟩

/-- Claim C2 (amended): the consecutive-error counter is incremented on each
non-recoverable, non-pool-wait failure (including failures outside the
taxonomy); it is reset to zero only when a pool-wait condition or a TxBanned
error is hit; it is left unchanged on every other recoverable failure and on a
successful submission. -/
theorem c2_counter_policy :
    (∀ c msg e, e.requires_pool_wait = true →
      counter_step c (SubmitOutcome.failure (some e) msg) = some 0) ∧
    (∀ c msg, counter_step c (SubmitOutcome.failure (some MigrationError.TxBanned) msg) = some 0) ∧
    (∀ c msg e, e.is_recoverable = true → e.requires_pool_wait = false → e.isTxBanned = false →
      counter_step c (SubmitOutcome.failure (some e) msg) = some c) ∧
    (∀ c msg e, e.is_recoverable = false → c + 1 < MAX_CONSECUTIVE_ERRORS →
      counter_step c (SubmitOutcome.failure (some e) msg) = some (c + 1)) ∧
    (∀ c msg, c + 1 < MAX_CONSECUTIVE_ERRORS →
      counter_step c (SubmitOutcome.failure none msg) = some (c + 1)) ∧
    (∀ c, counter_step c SubmitOutcome.success = some c) := by
  refine ⟨?_, ?_, ?_, ?_, ?_, fun c => rfl⟩
  · intro c msg e h
    simp [counter_step, handle_error, h]
  · intro c msg
    rfl
  · intro c msg e hrec hpw hban
    simp [counter_step, handle_error, hpw, hban, hrec]
  · intro c msg e hrec hc
    have hpw : e.requires_pool_wait = false := by
      cases hpw : e.requires_pool_wait
      · rfl
      · exact absurd (requires_pool_wait_recoverable e hpw) (by simp [hrec])
    have hban : e.isTxBanned = false := by
      cases hban : e.isTxBanned
      · rfl
      · exact absurd (isTxBanned_recoverable e hban) (by simp [hrec])
    simp [counter_step, handle_error, hpw, hban, hrec, Nat.not_le.mpr hc]
  · intro c msg hc
    simp [counter_step, handle_error, Nat.not_le.mpr hc]

/-- Witness for C2 at concrete inputs: a pool conflict resets a counter of 3,
while a non-recoverable SizeExceeded at counter 2 increments it to 3. -/
theorem c2_witness :
    counter_step 3 (SubmitOutcome.failure (some MigrationError.PoolConflict) "m") = some 0 ∧
    counter_step 2 (SubmitOutcome.failure (some MigrationError.SizeExceeded) "m") = some 3 := by
  constructor
  · exact c2_counter_policy.1 3 "m" MigrationError.PoolConflict rfl
  · exact c2_counter_policy.2.2.2.1 2 "m" MigrationError.SizeExceeded rfl (by decide)

/-- Claim C5: once the consecutive non-recoverable failure count reaches the
ceiling of 5, the loop aborts with TooManyErrors carrying the count and the
last failure text; this covers structured non-recoverable errors, failures
outside the taxonomy, and five unknown failures in a row from a fresh counter. -/
theorem c5_too_many_errors :
    (∀ c msg e, e.is_recoverable = false → MAX_CONSECUTIVE_ERRORS ≤ c + 1 →
      handle_error (some e) msg c =
        ErrOutcome.abort (MigrationError.TooManyErrors (c + 1) msg)) ∧
    (∀ c msg, MAX_CONSECUTIVE_ERRORS ≤ c + 1 →
      handle_error none msg c = ErrOutcome.abort (MigrationError.TooManyErrors (c + 1) msg)) ∧
    (∀ m1 m2 m3 m4 m5 : String,
      run_failures 0 [(none, m1), (none, m2), (none, m3), (none, m4), (none, m5)] =
        ErrOutcome.abort (MigrationError.TooManyErrors 5 m5)) := by
  refine ⟨?_, ?_, ?_⟩
  · intro c msg e hrec hc
    have hpw : e.requires_pool_wait = false := by
      cases hpw : e.requires_pool_wait
      · rfl
      · exact absurd (requires_pool_wait_recoverable e hpw) (by simp [hrec])
    have hban : e.isTxBanned = false := by
      cases hban : e.isTxBanned
      · rfl
      · exact absurd (isTxBanned_recoverable e hban) (by simp [hrec])
    simp [handle_error, hpw, hban, hrec, hc]
  · intro c msg hc
    simp [handle_error, hc]
  · intro m1 m2 m3 m4 m5
    rfl

/-- Witness for C5: a fifth consecutive SizeExceeded failure aborts with count
5 and the failure text. -/
theorem c5_witness :
    handle_error (some MigrationError.SizeExceeded) "boom" 4 =
      ErrOutcome.abort (MigrationError.TooManyErrors 5 "boom") :=
  c5_too_many_errors.1 4 "boom" MigrationError.SizeExceeded rfl (by decide)

/-- Claim C9: from_rpc_error yields exactly one error kind for every failure
text; a pool-priority marker maps to PoolConflict, a bad-signature marker (with
no earlier match) to NonceStale, a temporary-ban marker (with no earlier match)
to TxBanned, and text with no marker to SubmissionFailed carrying the text. -/
theorem c9_from_rpc_error :
    (∀ s, ∃! e, MigrationError.from_rpc_error s = e) ∧
    (∀ s, (strContains s "1014" || strContains s "Priority is too low") = true →
      MigrationError.from_rpc_error s = MigrationError.PoolConflict) ∧
    (∀ s, (strContains s "1014" || strContains s "Priority is too low") = false →
      (strContains s "1010" || strContains s "bad signature") = true →
      MigrationError.from_rpc_error s = MigrationError.NonceStale) ∧
    (∀ s, (strContains s "1014" || strContains s "Priority is too low") = false →
      (strContains s "1010" || strContains s "bad signature") = false →
      (strContains s "1012" || strContains s "temporarily banned") = true →
      MigrationError.from_rpc_error s = MigrationError.TxBanned) ∧
    (∀ s, (strContains s "1014" || strContains s "Priority is too low") = false →
      (strContains s "1010" || strContains s "bad signature") = false →
      (strContains s "1012" || strContains s "temporarily banned") = false →
      MigrationError.from_rpc_error s = MigrationError.SubmissionFailed s) := by
  refine ⟨fun s => ⟨MigrationError.from_rpc_error s, rfl, fun y hy => hy.symm⟩, ?_, ?_, ?_, ?_⟩
  · intro s h
    simp [MigrationError.from_rpc_error, h]
  · intro s h1 h2
    simp [MigrationError.from_rpc_error, h1, h2]
  · intro s h1 h2 h3
    simp [MigrationError.from_rpc_error, h1, h2, h3]
  · intro s h1 h2 h3
    simp [MigrationError.from_rpc_error, h1, h2, h3]

/-- Witness for C9 on concrete failure texts for each marker family and the
fallback. -/
theorem c9_witness :
    MigrationError.from_rpc_error "code 1014" = MigrationError.PoolConflict ∧
    MigrationError.from_rpc_error "bad signature" = MigrationError.NonceStale ∧
    MigrationError.from_rpc_error "temporarily banned" = MigrationError.TxBanned ∧
    MigrationError.from_rpc_error "weird" = MigrationError.SubmissionFailed "weird" := by
  refine ⟨?_, ?_, ?_, ?_⟩
  · exact c9_from_rpc_error.2.1 "code 1014" (by decide)
  · exact c9_from_rpc_error.2.2.1 "bad signature" (by decide) (by decide)
  · exact c9_from_rpc_error.2.2.2.1 "temporarily banned" (by decide) (by decide) (by decide)
  · exact c9_from_rpc_error.2.2.2.2 "weird" (by decide) (by decide) (by decide)

/-- Claim C1 counterexample: the transaction is included, the stream then
terminates without a finalization event, and the re-queried nonce equals the
nonce recorded before submission (5); the pipeline nevertheless returns
success instead of the SubmissionFailed the claim requires. -/
theorem c1_counterexample :
    wait_finalization 5 5 [(false, TxStatusM.InBestBlock)] false = Except.ok () := rfl

/-- Claim C1 (amended): when a stream event is observed after the 120-second
bound, the pipeline re-queries the nonce and returns success if it advanced
past the recorded nonce and fails with SubmissionFailed otherwise; when the
stream terminates without a finalization event the pipeline returns success
regardless of the nonce. -/
theorem c1_finalization_wait :
    (∀ e c st rest inc, e < c →
      wait_finalization e c ((true, st) :: rest) inc = Except.ok ()) ∧
    (∀ e c st rest inc, c ≤ e →
      wait_finalization e c ((true, st) :: rest) inc =
        Except.error (MigrationError.SubmissionFailed "Finalization timeout - TX may be stuck")) ∧
    (∀ e c inc, wait_finalization e c [] inc = Except.ok ()) := by
  refine ⟨?_, ?_, ?_⟩
  · intro e c st rest inc h
    simp [wait_finalization, h]
  · intro e c st rest inc h
    simp [wait_finalization, Nat.not_lt.mpr h]
  · intro e c inc
    cases inc <;> simp [wait_finalization, stream_end_check]

/-- Witness for C1: a timed-out event with an advanced nonce succeeds, a
timed-out event with an unchanged nonce fails, and an ended stream succeeds. -/
theorem c1_witness :
    wait_finalization 1 2 [(true, TxStatusM.OtherStatus)] false = Except.ok () ∧
    wait_finalization 2 2 [(true, TxStatusM.OtherStatus)] false =
      Except.error (MigrationError.SubmissionFailed "Finalization timeout - TX may be stuck") ∧
    wait_finalization 2 2 [] true = Except.ok () := by
  refine ⟨?_, ?_, ?_⟩
  · exact c1_finalization_wait.1 1 2 TxStatusM.OtherStatus [] false (by decide)
  · exact c1_finalization_wait.2.1 2 2 TxStatusM.OtherStatus [] false (by decide)
  · exact c1_finalization_wait.2.2 2 2 true

/-- Claim C4: in the dry-run loop, a validity rejection decoding to Stale with
retries remaining re-signs and runs the next attempt; any other validity
rejection stops at once with the mapped error; the mapping sends Stale to
NonceStale, Future to NonceFuture, Priority to PoolConflict and wraps every
other validity error; and a run where every attempt rejects with Stale stops
after the third attempt with NonceStale. -/
theorem c4_dry_run_retry :
    (∀ (oc : Nat → DryRunOutcome) (fuel retry : Nat) (raw : List Nat),
      oc retry = DryRunOutcome.validityError raw →
      Utils.decode_validity_error raw = Utils.ValidityError.Stale →
      retry < MAX_DRY_RUN_RETRIES - 1 →
      dry_run_aux oc (fuel + 1) retry = dry_run_aux oc fuel (retry + 1)) ∧
    (∀ (oc : Nat → DryRunOutcome) (fuel retry : Nat) (raw : List Nat),
      oc retry = DryRunOutcome.validityError raw →
      Utils.decode_validity_error raw ≠ Utils.ValidityError.Stale →
      dry_run_aux oc (fuel + 1) retry =
        DryRunResultM.fail
          (MigrationError.from_validity_error (Utils.decode_validity_error raw))) ∧
    (MigrationError.from_validity_error Utils.ValidityError.Stale = MigrationError.NonceStale ∧
      MigrationError.from_validity_error Utils.ValidityError.Future = MigrationError.NonceFuture ∧
      MigrationError.from_validity_error Utils.ValidityError.Priority =
        MigrationError.PoolConflict ∧
      (∀ ve, ve ≠ Utils.ValidityError.Stale → ve ≠ Utils.ValidityError.Future →
        ve ≠ Utils.ValidityError.Priority →
        MigrationError.from_validity_error ve = MigrationError.ValidityError ve)) ∧
    dry_run_loop (fun _ => DryRunOutcome.validityError [1, 0, 3]) =
      DryRunResultM.fail MigrationError.NonceStale := by
  refine ⟨?_, ?_, ⟨rfl, rfl, rfl, ?_⟩, rfl⟩
  · intro oc fuel retry raw hoc hstale hr
    simp [dry_run_aux, hoc, hstale, hr]
  · intro oc fuel retry raw hoc hstale
    simp [dry_run_aux, hoc, hstale]
  · intro ve h1 h2 h3
    cases ve <;> simp_all [MigrationError.from_validity_error]

/-- Witness for C4: every attempt rejects with the Future validity bytes, so
the first attempt already stops with the mapped NonceFuture error. -/
theorem c4_witness :
    dry_run_aux (fun _ => DryRunOutcome.validityError [1, 0, 2]) 3 0 =
      DryRunResultM.fail
        (MigrationError.from_validity_error (Utils.decode_validity_error [1, 0, 2])) :=
  c4_dry_run_retry.2.1 (fun _ => DryRunOutcome.validityError [1, 0, 2]) 2 0 [1, 0, 2]
    rfl (by decide)

/-- Claim C6 counterexample: the unrecognized Invalid sub-code 11 decodes to an
Other variant whose text is a code description that does not carry the hex dump
of the offending bytes (hex 000b). -/
theorem c6_counterexample :
    Utils.decode_validity_error [0, 11] = Utils.ValidityError.Other "Invalid::Unknown(11)" ∧
    Utils.hexEncode [0, 11] = "000b" ∧
    isInfixChars (Utils.hexEncode [0, 11]).data "Invalid::Unknown(11)".data = false := by
  refine ⟨rfl, rfl, rfl⟩

/-- Claim C6 (amended): decode_validity_error maps every byte sequence to
exactly one ValidityError variant; the empty sequence yields Other with a fixed
description and no hex dump, an input that ends right after the Err marker
yields Other with a hex dump, an unrecognized top-level family code (2 or more,
with or without the Err marker) yields Other with a hex dump, and an
unrecognized sub-code yields Other with a code description and no hex dump. -/
theorem c6_decode_total :
    (∀ bs : List Nat, ∃! ve, Utils.decode_validity_error bs = ve) ∧
    Utils.decode_validity_error [] = Utils.ValidityError.Other "empty response" ∧
    Utils.decode_validity_error [1] =
      Utils.ValidityError.Other ("raw: 0x" ++ Utils.hexEncode [1]) ∧
    (∀ (t : Nat) (rest : List Nat),
      Utils.decode_validity_error ((t + 2) :: rest) =
        Utils.ValidityError.Other
          ("UnrecognizedError(type=" ++ toString (t + 2) ++ ", raw=0x" ++
            Utils.hexEncode ((t + 2) :: rest) ++ ")")) ∧
    (∀ (t : Nat) (rest : List Nat),
      Utils.decode_validity_error (1 :: (t + 2) :: rest) =
        Utils.ValidityError.Other
          ("UnrecognizedError(type=" ++ toString (t + 2) ++ ", raw=0x" ++
            Utils.hexEncode (1 :: (t + 2) :: rest) ++ ")")) ∧
    Utils.decode_validity_error [0, 11] = Utils.ValidityError.Other "Invalid::Unknown(11)" := by
  refine ⟨fun bs => ⟨Utils.decode_validity_error bs, rfl, fun y hy => hy.symm⟩,
    rfl, rfl, ?_, ?_, rfl⟩
  · intro t rest
    have ht : ¬ (t + 2 = 1) := by omega
    simp [Utils.decode_validity_error, ht]
  · intro t rest
    simp [Utils.decode_validity_error]

/-- Claim C8: with chain maxima discovered and both ceilings requested as zero,
the effective limits are half of each maximum and no configuration transaction
is needed; with no chain maxima, the hardcoded fallbacks 409600 and 4096 are
used for zero requests and a configuration transaction is always submitted; and
an explicit request above either discovered maximum triggers the configuration
transaction. -/
theorem c8_resolve_limits :
    (∀ max_size max_item,
      resolve_limits (some (max_size, max_item)) 0 0 =
        ⟨max_size / 2, max_item / 2, false⟩) ∧
    resolve_limits none 0 0 = ⟨409600, 4096, true⟩ ∧
    (∀ cfg_size cfg_item, (resolve_limits none cfg_size cfg_item).set_tx = true) ∧
    (∀ max_size max_item cfg_size cfg_item, max_item < cfg_item →
      (resolve_limits (some (max_size, max_item)) cfg_size cfg_item).set_tx = true) ∧
    (∀ max_size max_item cfg_size cfg_item, max_size < cfg_size →
      (resolve_limits (some (max_size, max_item)) cfg_size cfg_item).set_tx = true) := by
  refine ⟨?_, rfl, ?_, ?_, ?_⟩
  · intro max_size max_item
    have hi : ¬ (max_item < max_item / 2) := Nat.not_lt.mpr (Nat.div_le_self max_item 2)
    have hs : ¬ (max_size < max_size / 2) := Nat.not_lt.mpr (Nat.div_le_self max_size 2)
    simp [resolve_limits, hi, hs]
  · intro cfg_size cfg_item
    cases hcs : decide (cfg_size = 0) <;> cases hci : decide (cfg_item = 0) <;>
      simp_all [resolve_limits]
  · intro max_size max_item cfg_size cfg_item h
    have hci : ¬ (cfg_item = 0) := by omega
    simp [resolve_limits, hci, h]
  · intro max_size max_item cfg_size cfg_item h
    have hcs : ¬ (cfg_size = 0) := by omega
    simp [resolve_limits, hcs, h]

/-- Witness for C8: chain maxima 100 and 10 with zero requests resolve to 50
and 5 without a configuration transaction, while an explicit item request of 20
above the maximum 10 triggers one. -/
theorem c8_witness :
    resolve_limits (some (100, 10)) 0 0 = ⟨50, 5, false⟩ ∧
    (resolve_limits (some (100, 10)) 0 20).set_tx = true := by
  constructor
  · exact c8_resolve_limits.1 100 10
  · exact c8_resolve_limits.2.2.2.1 100 10 0 20 (by decide)
